import Mathlib

/-!
Shallow embedding of the paginated collection views of the
Image-Organizer frontend (React/JS), covering the pages AllImages,
Unidentified, People and PersonDetail, and the ImageCard mutation
handlers.

Conventions of the embedding:
- JS numbers that the code subtracts from are modelled as Int (so the
  unconditional decrement of a total can go below zero, as in JS).
- Record ids are modelled as Nat; a nullable id is Option Nat.
- A JS truthiness test on a nullable numeric id is modelled by jsTruthy,
  where both null and 0 are falsy.
- Each event handler is a pure function from the component state to the
  new component state paired with the list of HTTP requests it issues.
- Toast notifications are collected in a list; console logging is not a
  toast (it is not user-visible), so a catch block that only logs
  produces an empty toast list.
-/

/-- An image record as held by the frontend lists. -/
structure Image where
  id : Nat
  person_id : Option Nat
  face_count : Nat
  is_identified : Bool
deriving DecidableEq

/-- A person record as held by the frontend lists. -/
structure Person where
  id : Nat
  name : String
  image_count : Int
deriving DecidableEq

/-- The pagination state object used by AllImages, Unidentified and
PersonDetail. -/
structure Pagination where
  page : Int
  per_page : Int
  total : Int
  pages : Int
deriving DecidableEq

/-- Kind of a react-hot-toast notification. -/
inductive ToastKind where
  | success
  | error
deriving DecidableEq

/-- A user-visible toast notification. -/
structure Toast where
  kind : ToastKind
  message : String
deriving DecidableEq

/-- Build an error toast. -/
def errToast (m : String) : Toast :=
  { kind := ToastKind.error, message := m }

/-- Build a success toast. -/
def okToast (m : String) : Toast :=
  { kind := ToastKind.success, message := m }

/-- HTTP requests issued through the api module. -/
inductive ApiRequest where
  | imagesGetAll (page per_page : Int) (filterParam : String)
  | peopleGetAll (search : Option String)
  | peopleGetImages (personId : Nat) (page per_page : Int)
deriving DecidableEq

/-- JS truthiness of a nullable numeric id: null and 0 are falsy. -/
def jsTruthy : Option Nat → Bool
  | none => false
  | some n => n != 0

/-- Body of an images list response: data plus pagination metadata. -/
structure ImagesResponse where
  data : List Image
  pagination : Pagination
deriving DecidableEq

/-! ## AllImages page -/

/-- Local state of the AllImages component. -/
structure AllImagesState where
  images : List Image
  people : List Person
  loading : Bool
  pagination : Pagination
  filterState : String
deriving DecidableEq

/-- The two requests fetchData issues via Promise.all:
imagesApi.getAll with the current page, per_page and filter, and
peopleApi.getAll with no params. -/
def AllImages.fetchDataRequests (st : AllImagesState) : List ApiRequest :=
  [ApiRequest.imagesGetAll st.pagination.page st.pagination.per_page st.filterState,
   ApiRequest.peopleGetAll none]

/-- Success branch of AllImages.fetchData: setImages(imagesRes.data),
setPeople(peopleRes.data), setPagination spreading the response
pagination over the previous one (the response carries all four fields,
so the previous value is fully overwritten), finally setLoading(false). -/
def AllImages.fetchDataSuccess (st : AllImagesState) (imagesRes : ImagesResponse)
    (peopleRes : List Person) : AllImagesState :=
  { st with
    images := imagesRes.data
    people := peopleRes
    pagination := imagesRes.pagination
    loading := false }

/-- Failure branch of AllImages.fetchData: the catch block only does
console.error (no toast, no state write), and the finally block does
setLoading(false). Returns the state and the toasts shown. -/
def AllImages.fetchDataFailure (st : AllImagesState) : AllImagesState × List Toast :=
  ({ st with loading := false }, [])

/-- AllImages.handleDelete(imageId): filter the image out of the held
list and decrement pagination.total by 1 (unconditionally). It issues
no request. -/
def AllImages.handleDelete (st : AllImagesState) (imageId : Nat) :
    AllImagesState × List ApiRequest :=
  ({ st with
      images := st.images.filter (fun img => img.id != imageId)
      pagination := { st.pagination with total := st.pagination.total - 1 } },
   [])

/-- AllImages.handleAssign ignores its arguments and calls fetchData():
it sets loading and issues the fetchData requests; the held state is
otherwise untouched until a response arrives. -/
def AllImages.handleAssign (st : AllImagesState) : AllImagesState × List ApiRequest :=
  ({ st with loading := true }, AllImages.fetchDataRequests st)

/-- The dependency array of the AllImages useEffect:
[pagination.page, filter]. -/
def AllImages.effectDeps (st : AllImagesState) : Int × String :=
  (st.pagination.page, st.filterState)

/-- The onClick of a filter button: setFilter(value) and
setPagination(prev, page := 1). React batches the two updates into one
re-render. -/
def AllImages.clickFilter (st : AllImagesState) (value : String) : AllImagesState :=
  { st with
    filterState := value
    pagination := { st.pagination with page := 1 } }

/-- Requests issued by the useEffect after an event took the state from
b to a: fetchData runs exactly once when the dependency array changed,
otherwise not at all. -/
def AllImages.requestsAfter (b a : AllImagesState) : List ApiRequest :=
  if AllImages.effectDeps a = AllImages.effectDeps b then []
  else AllImages.fetchDataRequests a

/-- Folding AllImages.handleDelete over a list of ids. -/
def AllImages.removeAll (st : AllImagesState) (ids : List Nat) : AllImagesState :=
  ids.foldl (fun s i => (AllImages.handleDelete s i).1) st

/-! ## Unidentified page -/

/-- Local state of the Unidentified component. -/
structure UnidentifiedState where
  images : List Image
  people : List Person
  loading : Bool
  pagination : Pagination
deriving DecidableEq

/-- Failure branch of Unidentified.fetchData: console.error only,
then setLoading(false). -/
def Unidentified.fetchDataFailure (st : UnidentifiedState) :
    UnidentifiedState × List Toast :=
  ({ st with loading := false }, [])

/-- Unidentified.handleDelete(imageId): same splice as in AllImages. -/
def Unidentified.handleDelete (st : UnidentifiedState) (imageId : Nat) :
    UnidentifiedState × List ApiRequest :=
  ({ st with
      images := st.images.filter (fun img => img.id != imageId)
      pagination := { st.pagination with total := st.pagination.total - 1 } },
   [])

/-- Unidentified.handleAssign(imageId, personId): if personId is truthy
the image is removed from the unidentified list and total is
decremented; otherwise nothing happens. -/
def Unidentified.handleAssign (st : UnidentifiedState) (imageId : Nat)
    (personId : Option Nat) : UnidentifiedState × List ApiRequest :=
  if jsTruthy personId then
    ({ st with
        images := st.images.filter (fun img => img.id != imageId)
        pagination := { st.pagination with total := st.pagination.total - 1 } },
     [])
  else
    (st, [])

/-! ## People page -/

/-- Local state of the People component. -/
structure PeopleState where
  people : List Person
  loading : Bool
  search : String
deriving DecidableEq

/-- The request People.fetchPeople issues: peopleApi.getAll({search}). -/
def People.fetchPeopleRequests (st : PeopleState) : List ApiRequest :=
  [ApiRequest.peopleGetAll (some st.search)]

/-- Failure branch of People.fetchPeople: one error toast, then
setLoading(false); the held people list is untouched. -/
def People.fetchPeopleFailure (st : PeopleState) : PeopleState × List Toast :=
  ({ st with loading := false }, [errToast "Failed to fetch people"])

/-- Typing in the search box: setSearch(term). -/
def People.changeSearch (st : PeopleState) (term : String) : PeopleState :=
  { st with search := term }

/-- Requests issued by the People useEffect (dependency array [search])
after an event took the state from b to a. -/
def People.requestsAfter (b a : PeopleState) : List ApiRequest :=
  if a.search = b.search then [] else People.fetchPeopleRequests a

/-! ## PersonDetail page -/

/-- Local state of the PersonDetail component while a person is shown.
scopeId is the route param id; the handlers below are only reachable
when person is non-null, so person is modelled as present. -/
structure PersonDetailState where
  scopeId : Nat
  person : Person
  images : List Image
  allPeople : List Person
  loading : Bool
  pagination : Pagination
deriving DecidableEq

/-- PersonDetail.handleImageDelete(imageId): filter the image out,
decrement pagination.total by 1, decrement person.image_count by 1.
It issues no request. -/
def PersonDetail.handleImageDelete (st : PersonDetailState) (imageId : Nat) :
    PersonDetailState × List ApiRequest :=
  ({ st with
      images := st.images.filter (fun img => img.id != imageId)
      pagination := { st.pagination with total := st.pagination.total - 1 }
      person := { st.person with image_count := st.person.image_count - 1 } },
   [])

/-- PersonDetail.handleImageAssign(imageId, personId): when the new
owner differs from the viewed person the image is spliced out exactly
as in handleImageDelete; otherwise nothing happens. (The source
compares with strict inequality against the route param.) -/
def PersonDetail.handleImageAssign (st : PersonDetailState) (imageId : Nat)
    (personId : Option Nat) : PersonDetailState × List ApiRequest :=
  if personId != some st.scopeId then
    ({ st with
        images := st.images.filter (fun img => img.id != imageId)
        pagination := { st.pagination with total := st.pagination.total - 1 }
        person := { st.person with image_count := st.person.image_count - 1 } },
     [])
  else
    (st, [])

/-! ## ImageCard mutation handlers -/

/-- ImageCard.handleDelete: await imagesApi.delete, then on success show
a success toast and invoke the onDelete callback of the parent; on
failure show the error toast and leave the parent state untouched.
The parent state type is abstract. -/
def ImageCard.handleDelete {σ : Type} (onDelete : σ → Nat → σ) (parent : σ)
    (imageId : Nat) (server : Except String Unit) : σ × List Toast :=
  match server with
  | Except.ok _ => (onDelete parent imageId, [okToast "Image deleted"])
  | Except.error e => (parent, [errToast e])

/-- ImageCard.handleAssign: await imagesApi.assign, then on success show
a success toast and invoke the onAssign callback of the parent; on
failure show the error toast and leave the parent state untouched. -/
def ImageCard.handleAssign {σ : Type} (onAssign : σ → Nat → Option Nat → σ)
    (parent : σ) (imageId : Nat) (personId : Option Nat)
    (server : Except String Unit) : σ × List Toast :=
  match server with
  | Except.ok _ =>
      (onAssign parent imageId personId,
       [okToast (if jsTruthy personId then "Image assigned" else "Image unassigned")])
  | Except.error e => (parent, [errToast e])

/-! ## Sample states used by witnesses and counterexamples -/

/-- A sample unassigned image with the given id. -/
def sampleImage (i : Nat) : Image :=
  { id := i, person_id := none, face_count := 1, is_identified := false }

/-- A sample AllImages state holding three images with ids 1, 2, 3. -/
def sampleAllImagesState : AllImagesState :=
  { images := [sampleImage 1, sampleImage 2, sampleImage 3]
    people := []
    loading := false
    pagination := { page := 1, per_page := 30, total := 3, pages := 1 }
    filterState := "all" }

/-- A sample Unidentified state holding five images with ids 1..5. -/
def unidentifiedFiveState : UnidentifiedState :=
  { images := [sampleImage 1, sampleImage 2, sampleImage 3, sampleImage 4, sampleImage 5]
    people := []
    loading := false
    pagination := { page := 1, per_page := 30, total := 5, pages := 1 } }

/-- A sample PersonDetail state: person with id 4 and image_count 10,
holding two of that persons images. -/
def samplePersonDetailState : PersonDetailState :=
  { scopeId := 4
    person := { id := 4, name := "P", image_count := 10 }
    images := [sampleImage 1, sampleImage 2]
    allPeople := []
    loading := false
    pagination := { page := 1, per_page := 30, total := 2, pages := 1 } }

/-- A sample People state with an empty search term. -/
def samplePeopleState : PeopleState :=
  { people := [{ id := 4, name := "P", image_count := 10 }]
    loading := false
    search := "" }

/-! ## Claim theorems -/

/-- Claim C1 (amended): AllImages.handleDelete is idempotent on the held
items (the second filter with the same id changes nothing), but
pagination.total is decremented by 1 on every call regardless of
whether the id is present: a second call with the same id decrements it
again, and a call with an absent id leaves the items unchanged yet
still decrements the total. -/
theorem removeItem_idempotent_on_items_but_total_decrements
    (st : AllImagesState) (imageId : Nat) :
    (AllImages.handleDelete (AllImages.handleDelete st imageId).1 imageId).1.images
      = (AllImages.handleDelete st imageId).1.images
    ∧ (AllImages.handleDelete (AllImages.handleDelete st imageId).1 imageId).1.pagination.total
      = (AllImages.handleDelete st imageId).1.pagination.total - 1
    ∧ ((∀ img ∈ st.images, img.id ≠ imageId) →
        (AllImages.handleDelete st imageId).1.images = st.images
        ∧ (AllImages.handleDelete st imageId).1.pagination.total
            = st.pagination.total - 1) := by
  refine ⟨?_, rfl, ?_⟩
  · simp [AllImages.handleDelete, List.filter_filter]
  · intro h
    refine ⟨?_, rfl⟩
    simp only [AllImages.handleDelete]
    exact List.filter_eq_self.mpr (fun a ha => by simpa using h a ha)

/-- Witness for C1: on the sample state, removing the absent id 99
leaves the items unchanged while the total still drops by 1. -/
theorem removeItem_total_decrement_witness :
    (AllImages.handleDelete sampleAllImagesState 99).1.images
      = sampleAllImagesState.images
    ∧ (AllImages.handleDelete sampleAllImagesState 99).1.pagination.total
      = sampleAllImagesState.pagination.total - 1 :=
  (removeItem_idempotent_on_items_but_total_decrements sampleAllImagesState 99).2.2
    (by decide)

/-- Counterexample for C1 as stated: on the sample state, a second
handleDelete with the same id changes pagination.total again, and
handleDelete with an absent id changes pagination.total, so the
operation is neither idempotent on totalCount nor a no-op for an
absent id. -/
theorem removeItem_not_idempotent_counterexample :
    (AllImages.handleDelete (AllImages.handleDelete sampleAllImagesState 1).1 1).1.pagination.total
      ≠ (AllImages.handleDelete sampleAllImagesState 1).1.pagination.total
    ∧ (AllImages.handleDelete sampleAllImagesState 99).1.pagination.total
      ≠ sampleAllImagesState.pagination.total := by
  decide

/-- Claim C2: a failed delete or assign server call leaves the parent
state exactly as it was (for any parent state and any callbacks) and
surfaces the error as a single error toast, while a successful call
applies the optimistic callback, so the local update happens only after
server success. -/
theorem failedMutation_leaves_state_unchanged {σ : Type}
    (onDelete : σ → Nat → σ) (onAssign : σ → Nat → Option Nat → σ)
    (parent : σ) (imageId : Nat) (personId : Option Nat) (e : String) :
    ImageCard.handleDelete onDelete parent imageId (Except.error e)
      = (parent, [errToast e])
    ∧ ImageCard.handleAssign onAssign parent imageId personId (Except.error e)
      = (parent, [errToast e])
    ∧ ImageCard.handleDelete onDelete parent imageId (Except.ok ())
      = (onDelete parent imageId, [okToast "Image deleted"])
    ∧ ImageCard.handleAssign onAssign parent imageId personId (Except.ok ())
      = (onAssign parent imageId personId,
         [okToast (if jsTruthy personId then "Image assigned" else "Image unassigned")]) :=
  ⟨rfl, rfl, rfl, rfl⟩

/-- Counterexample for C3 as stated: on the sample state the AllImages
fetch failure path surfaces zero user-visible notifications (the catch
block only logs to the console), not exactly one. -/
theorem loadFailure_no_toast_counterexample :
    (AllImages.fetchDataFailure sampleAllImagesState).2.length ≠ 1 := by
  decide

/-- Claim C3 (amended): a failing load leaves the previously held items
and pagination metadata unchanged in every view; the People view
surfaces exactly one error toast, while the AllImages and Unidentified
views surface no user-visible notification at all (console logging
only). -/
theorem loadFailure_preserves_state_toast_varies
    (st : AllImagesState) (stU : UnidentifiedState) (stP : PeopleState) :
    (AllImages.fetchDataFailure st).1.images = st.images
    ∧ (AllImages.fetchDataFailure st).1.people = st.people
    ∧ (AllImages.fetchDataFailure st).1.pagination = st.pagination
    ∧ (AllImages.fetchDataFailure st).2 = []
    ∧ (Unidentified.fetchDataFailure stU).1.images = stU.images
    ∧ (Unidentified.fetchDataFailure stU).1.pagination = stU.pagination
    ∧ (Unidentified.fetchDataFailure stU).2 = []
    ∧ (People.fetchPeopleFailure stP).1.people = stP.people
    ∧ (People.fetchPeopleFailure stP).2 = [errToast "Failed to fetch people"] :=
  ⟨rfl, rfl, rfl, rfl, rfl, rfl, rfl, rfl, rfl⟩

/-- Helper: folding handleDelete over any id list filters out exactly
the images whose id occurs in the list and lowers the total by the
list length, independently of any side conditions. -/
theorem removeAll_images_and_total (ids : List Nat) (st : AllImagesState) :
    (AllImages.removeAll st ids).images
      = st.images.filter (fun img => !(ids.contains img.id))
    ∧ (AllImages.removeAll st ids).pagination.total
      = st.pagination.total - ids.length := by
  induction ids generalizing st with
  | nil =>
      constructor
      · simp [AllImages.removeAll]
      · simp [AllImages.removeAll]
  | cons i tl ih =>
      have h := ih (AllImages.handleDelete st i).1
      have hstep : AllImages.removeAll st (i :: tl)
          = AllImages.removeAll (AllImages.handleDelete st i).1 tl := rfl
      constructor
      · rw [hstep, h.1]
        simp only [AllImages.handleDelete, List.filter_filter]
        apply List.filter_congr
        intro x _
        simp only [List.contains_cons, Bool.not_or, bne]
        rw [Bool.and_comm]
      · rw [hstep, h.2]
        simp only [AllImages.handleDelete, List.length_cons]
        omega

/-- Claim C4: for distinct ids drawn from the currently held items,
folding handleDelete over them yields exactly the original items with
those ids excluded (all others unchanged, in order) and lowers
pagination.total by exactly the number of removals. -/
theorem removeAll_excludes_ids_and_decrements_total
    (st : AllImagesState) (ids : List Nat) (_hnd : ids.Nodup)
    (_hmem : ∀ i ∈ ids, ∃ img ∈ st.images, img.id = i) :
    (AllImages.removeAll st ids).images
      = st.images.filter (fun img => !(ids.contains img.id))
    ∧ (AllImages.removeAll st ids).pagination.total
      = st.pagination.total - ids.length :=
  removeAll_images_and_total ids st

/-- Witness for C4: removing ids 1 and 3 (distinct, both held) from the
sample state leaves exactly the image with id 2 and lowers the total
from 3 to 1. -/
theorem removeAll_witness :
    ([1, 3] : List Nat).Nodup
    ∧ (∀ i ∈ ([1, 3] : List Nat), ∃ img ∈ sampleAllImagesState.images, img.id = i)
    ∧ (AllImages.removeAll sampleAllImagesState [1, 3]).images
        = sampleAllImagesState.images.filter (fun img => !(([1, 3] : List Nat).contains img.id))
    ∧ (AllImages.removeAll sampleAllImagesState [1, 3]).pagination.total
        = sampleAllImagesState.pagination.total - ([1, 3] : List Nat).length :=
  ⟨by decide, by decide,
   (removeAll_excludes_ids_and_decrements_total sampleAllImagesState [1, 3]
      (by decide) (by decide)).1,
   (removeAll_excludes_ids_and_decrements_total sampleAllImagesState [1, 3]
      (by decide) (by decide)).2⟩

/-- Claim C5: in the scoped views, reassigning to an owner other than
the scope owner acts exactly like removeItem. In the Unidentified view,
handleAssign with a (truthy) person id equals handleDelete; in the
PersonDetail view, handleImageAssign with a new owner different from
the viewed person equals handleImageDelete. -/
theorem scopedReassign_acts_as_remove
    (st : UnidentifiedState) (stP : PersonDetailState) (i1 i2 : Nat)
    (p : Nat) (pid : Option Nat) (hp : p ≠ 0) (hpid : pid ≠ some stP.scopeId) :
    Unidentified.handleAssign st i1 (some p) = Unidentified.handleDelete st i1
    ∧ PersonDetail.handleImageAssign stP i2 pid
        = PersonDetail.handleImageDelete stP i2 := by
  constructor
  · simp [Unidentified.handleAssign, Unidentified.handleDelete, jsTruthy, hp]
  · simp [PersonDetail.handleImageAssign, PersonDetail.handleImageDelete, hpid]

/-- Witness for C5: with five held unidentified images, reassigning the
image with id 3 to person 7 equals deleting it, leaving 4 items and a
total lowered by 1; in the PersonDetail sample (scope owner 4),
reassigning image 1 to person 7 equals deleting it. -/
theorem scopedReassign_witness :
    (7 : Nat) ≠ 0
    ∧ (some 7 : Option Nat) ≠ some samplePersonDetailState.scopeId
    ∧ Unidentified.handleAssign unidentifiedFiveState 3 (some 7)
        = Unidentified.handleDelete unidentifiedFiveState 3
    ∧ (Unidentified.handleAssign unidentifiedFiveState 3 (some 7)).1.images.length = 4
    ∧ (Unidentified.handleAssign unidentifiedFiveState 3 (some 7)).1.pagination.total
        = unidentifiedFiveState.pagination.total - 1
    ∧ PersonDetail.handleImageAssign samplePersonDetailState 1 (some 7)
        = PersonDetail.handleImageDelete samplePersonDetailState 1 :=
  ⟨by decide, by decide,
   (scopedReassign_acts_as_remove unidentifiedFiveState samplePersonDetailState 3 1 7
      (some 7) (by decide) (by decide)).1,
   by decide, by decide,
   (scopedReassign_acts_as_remove unidentifiedFiveState samplePersonDetailState 3 1 7
      (some 7) (by decide) (by decide)).2⟩

/-- Counterexample for C6 as stated: in the All Images view, the assign
handler does not update the held item in place and it does issue a
refetch: on the sample state the request list is nonempty and the held
images (including their person_id fields) are exactly as before. -/
theorem allViewReassign_refetches_counterexample :
    (AllImages.handleAssign sampleAllImagesState).2 ≠ []
    ∧ (AllImages.handleAssign sampleAllImagesState).1.images
        = sampleAllImagesState.images := by
  decide

/-- Claim C6 (amended): in the All Images view the assign handler
performs no local update at all: held items and pagination are left
untouched, and it issues a full refetch (an images load with the
current page, per-page and filter, plus a people fetch); the new
assignment is only reflected when the response replaces the state
wholesale. -/
theorem allViewReassign_is_refetch (st : AllImagesState) :
    (AllImages.handleAssign st).1.images = st.images
    ∧ (AllImages.handleAssign st).1.pagination = st.pagination
    ∧ (AllImages.handleAssign st).2
        = [ApiRequest.imagesGetAll st.pagination.page st.pagination.per_page st.filterState,
           ApiRequest.peopleGetAll none] :=
  ⟨rfl, rfl, rfl⟩

/-- Claim C7: from any current page, clicking a filter button with a
value different from the current filter resets the page to 1, and the
useEffect then issues exactly one fetchData run whose images load
carries the new filter and page 1; likewise, changing the search term
on the People page issues exactly one people fetch carrying the
updated term (that view holds no page number). -/
theorem filterChange_resets_page_and_loads_once
    (st : AllImagesState) (v : String) (hv : v ≠ st.filterState)
    (stP : PeopleState) (t : String) (ht : t ≠ stP.search) :
    (AllImages.clickFilter st v).pagination.page = 1
    ∧ AllImages.requestsAfter st (AllImages.clickFilter st v)
        = [ApiRequest.imagesGetAll 1 st.pagination.per_page v,
           ApiRequest.peopleGetAll none]
    ∧ People.requestsAfter stP (People.changeSearch stP t)
        = [ApiRequest.peopleGetAll (some t)] := by
  refine ⟨rfl, ?_, ?_⟩
  · have hne : AllImages.effectDeps (AllImages.clickFilter st v)
        ≠ AllImages.effectDeps st := by
      simp only [AllImages.effectDeps, AllImages.clickFilter, ne_eq, Prod.mk.injEq,
        not_and]
      intro _
      exact hv
    rw [AllImages.requestsAfter, if_neg hne]
    rfl
  · have hne : (People.changeSearch stP t).search ≠ stP.search := ht
    rw [People.requestsAfter, if_neg hne]
    rfl

/-- Witness for C7: changing the filter from all to identified on the
sample state resets the page and issues one load with the new filter
and page 1; changing the search term from empty to bob issues one
people fetch with the new term. -/
theorem filterChange_witness :
    ("identified" : String) ≠ sampleAllImagesState.filterState
    ∧ ("bob" : String) ≠ samplePeopleState.search
    ∧ (AllImages.clickFilter sampleAllImagesState "identified").pagination.page = 1
    ∧ AllImages.requestsAfter sampleAllImagesState
        (AllImages.clickFilter sampleAllImagesState "identified")
        = [ApiRequest.imagesGetAll 1 sampleAllImagesState.pagination.per_page "identified",
           ApiRequest.peopleGetAll none]
    ∧ People.requestsAfter samplePeopleState
        (People.changeSearch samplePeopleState "bob")
        = [ApiRequest.peopleGetAll (some "bob")] :=
  ⟨by decide, by decide,
   (filterChange_resets_page_and_loads_once sampleAllImagesState "identified"
      (by decide) samplePeopleState "bob" (by decide)).1,
   (filterChange_resets_page_and_loads_once sampleAllImagesState "identified"
      (by decide) samplePeopleState "bob" (by decide)).2.1,
   (filterChange_resets_page_and_loads_once sampleAllImagesState "identified"
      (by decide) samplePeopleState "bob" (by decide)).2.2⟩

/-- Claim C8: the delete handlers never change pagination.pages: in
AllImages, Unidentified and PersonDetail the value after the handler
equals the value before, with no recomputation; only a load response
replaces the pagination wholesale. -/
theorem removeItem_preserves_totalPages
    (st : AllImagesState) (stU : UnidentifiedState) (stP : PersonDetailState)
    (i1 i2 i3 : Nat) (res : ImagesResponse) (ppl : List Person) :
    (AllImages.handleDelete st i1).1.pagination.pages = st.pagination.pages
    ∧ (Unidentified.handleDelete stU i2).1.pagination.pages = stU.pagination.pages
    ∧ (PersonDetail.handleImageDelete stP i3).1.pagination.pages
        = stP.pagination.pages
    ∧ (AllImages.fetchDataSuccess st res ppl).pagination = res.pagination :=
  ⟨rfl, rfl, rfl, rfl⟩

/-- Claim C9: in the PersonDetail view, deleting a held image issues no
request, removes that image from the held items (strictly shortening
the list), lowers pagination.total by 1, and lowers the held persons
image_count by exactly 1. -/
theorem personDetailDelete_decrements_counts
    (st : PersonDetailState) (imageId : Nat)
    (h : ∃ img ∈ st.images, img.id = imageId) :
    (PersonDetail.handleImageDelete st imageId).2 = []
    ∧ (PersonDetail.handleImageDelete st imageId).1.images
        = st.images.filter (fun img => img.id != imageId)
    ∧ (PersonDetail.handleImageDelete st imageId).1.images.length < st.images.length
    ∧ (PersonDetail.handleImageDelete st imageId).1.pagination.total
        = st.pagination.total - 1
    ∧ (PersonDetail.handleImageDelete st imageId).1.person.image_count
        = st.person.image_count - 1 := by
  refine ⟨rfl, rfl, ?_, rfl, rfl⟩
  obtain ⟨img, hmem, hid⟩ := h
  have hle := List.length_filter_le (fun img => img.id != imageId) st.images
  apply Nat.lt_of_le_of_ne hle
  intro heq
  have hall := List.filter_length_eq_length.mp heq img hmem
  simp [hid] at hall

/-- Witness for C9: on the PersonDetail sample state (image_count 10,
two held images), deleting the held image with id 2 strictly shortens
the held list and drops image_count to 9. -/
theorem personDetailDelete_witness :
    (∃ img ∈ samplePersonDetailState.images, img.id = 2)
    ∧ (PersonDetail.handleImageDelete samplePersonDetailState 2).1.images.length
        < samplePersonDetailState.images.length
    ∧ (PersonDetail.handleImageDelete samplePersonDetailState 2).1.person.image_count = 9 :=
  ⟨by decide,
   (personDetailDelete_decrements_counts samplePersonDetailState 2 (by decide)).2.2.1,
   by decide⟩

/-- Claim C10: in the Unidentified view, the assign handler with a null
new owner is a complete no-op: the entire component state (items,
totalCount, totalPages and all other fields) is returned unchanged and
no request is issued. -/
theorem unassignInUnidentified_noop (st : UnidentifiedState) (imageId : Nat) :
    Unidentified.handleAssign st imageId none = (st, []) :=
  rfl
